import Mathlib

/-!
# Verification of the skill-mill extraction engine

Shallow embedding, in Lean 4, of the core text-processing functions of the
skill-mill repository (`scripts/layer1_extractor.py`, `scripts/phase_c_clustering.py`,
`scripts/claude_logs_parser.py`), together with theorems settling the frozen
claims about the natural-language specification.

Python strings are represented as lists of Unicode codepoints (`List Nat`);
Python's Unicode-aware character classes (`\s`, `\w`, `str.lower`) are embedded
as explicit predicates on codepoints.  Regular-expression searches appearing in
the source are embedded as equivalent scanning functions whose semantics
(including greediness and the relevant backtracking) follow Python's `re`
module on the patterns in question.
-/

namespace SkillMill

/-- Codepoints of a Lean string literal; used to write concrete Python strings. -/
def codes (s : String) : List Nat := s.data.map Char.toNat

/-! ## Python character classes

`pySpaceN` embeds Python's whitespace class: the set matched by `\s` in `re`
(with `str` patterns) and stripped by `str.strip()`.  This set is finite and is
enumerated exactly: ASCII whitespace, the C1/latin additions, and the Unicode
space separators. -/

def pySpaceN (n : Nat) : Bool :=
  n == 32 || (9 ≤ n && n ≤ 13) || (28 ≤ n && n ≤ 31) || n == 0x85 || n == 0xA0 ||
  n == 0x1680 || (0x2000 ≤ n && n ≤ 0x200A) || n == 0x2028 || n == 0x2029 ||
  n == 0x202F || n == 0x205F || n == 0x3000

/-- Embedding of Python's `\w` (Unicode word character: alphanumeric per
`str.isalnum`, plus underscore).  Exact on the Basic Latin and Latin-1 blocks
(including the Latin-1 superscript digits and vulgar fractions, which are
numeric, and excluding `×`/`÷`); higher scripts are covered on the all-letter
blocks used here (Latin Extended-A/B and IPA, Greek and Cyrillic letters,
Hiragana, CJK unified ideographs); codepoints outside the modelled ranges are
treated as non-word characters. -/
def pyWordN (n : Nat) : Bool :=
  (48 ≤ n && n ≤ 57) || (65 ≤ n && n ≤ 90) || (97 ≤ n && n ≤ 122) || n == 95 ||
  n == 0xAA || n == 0xB2 || n == 0xB3 || n == 0xB5 || n == 0xB9 || n == 0xBA ||
  (0xBC ≤ n && n ≤ 0xBE) || (0xC0 ≤ n && n ≤ 0xD6) || (0xD8 ≤ n && n ≤ 0xF6) ||
  (0xF8 ≤ n && n ≤ 0x2AF) || (0x391 ≤ n && n ≤ 0x3A9 && n != 0x3A2) ||
  (0x3B1 ≤ n && n ≤ 0x3C9) || (0x400 ≤ n && n ≤ 0x481) ||
  (0x3041 ≤ n && n ≤ 0x3096) || (0x4E00 ≤ n && n ≤ 0x9FFF)

/-- Embedding of Python's `str.lower` on one codepoint: exact on ASCII and the
Latin-1 block (uppercase `À`..`Þ` shift by 32, `×` excepted); identity on the
higher modelled ranges, where no claim depends on case mapping. -/
def pyLowerN (n : Nat) : Nat :=
  if 65 ≤ n ∧ n ≤ 90 then n + 32
  else if 0xC0 ≤ n ∧ n ≤ 0xDE ∧ n ≠ 0xD7 then n + 32
  else n

/-- Python `str.strip()`: remove leading and trailing whitespace. -/
def pyStrip (s : List Nat) : List Nat :=
  ((s.dropWhile pySpaceN).reverse.dropWhile pySpaceN).reverse

/-- Python `str.lower()` applied codepoint-wise. -/
def pyLower (s : List Nat) : List Nat := s.map pyLowerN

/-- Embedding of `re.sub(r'\s+', '-', s)`: each maximal nonempty run of
whitespace is replaced by a single hyphen (codepoint 45). -/
def collapseSpaces : List Nat → List Nat
  | [] => []
  | [c] => if pySpaceN c then [45] else [c]
  | c :: d :: rest =>
    if pySpaceN c then
      if pySpaceN d then collapseSpaces (d :: rest)
      else 45 :: collapseSpaces (d :: rest)
    else c :: collapseSpaces (d :: rest)

/-- `normalize_tag` (layer1_extractor.py, lines 168-173):
`tag.strip().lower()`, then `re.sub(r'\s+', '-', tag)`, then
`re.sub(r'[^\w\-]', '', tag)`. -/
def normalize_tag (s : List Nat) : List Nat :=
  (collapseSpaces (pyLower (pyStrip s))).filter (fun c => pyWordN c || c == 45)

/-- Reference normalization following the specification's words (spec section
4.6 / claim C6): "the token lowercased, internal whitespace runs collapsed to
single hyphens, and every character outside the set `[A-Za-z0-9_-]` removed
from the result".  Leading/trailing whitespace is not internal, so it is
stripped rather than collapsed; the final filter keeps exactly the ASCII
character class named by the spec. -/
def normalize_tag_spec (s : List Nat) : List Nat :=
  (collapseSpaces (pyStrip (pyLower s))).filter
    (fun c => (48 ≤ c && c ≤ 57) || (65 ≤ c && c ≤ 90) || (97 ≤ c && c ≤ 122) ||
      c == 95 || c == 45)

/-- The reference normalization as forced by the code: identical to
`normalize_tag_spec` except that the final character filter keeps Python's
Unicode word characters (`\w`) rather than only `[A-Za-z0-9_]`. -/
def normalize_tag_amendedSpec (s : List Nat) : List Nat :=
  (collapseSpaces (pyStrip (pyLower s))).filter (fun c => pyWordN c || c == 45)

/-! ### Character-class facts -/

theorem pySpaceN_iff (n : Nat) : pySpaceN n = true ↔
    (n = 32 ∨ (9 ≤ n ∧ n ≤ 13) ∨ (28 ≤ n ∧ n ≤ 31) ∨ n = 0x85 ∨ n = 0xA0 ∨
     n = 0x1680 ∨ (0x2000 ≤ n ∧ n ≤ 0x200A) ∨ n = 0x2028 ∨ n = 0x2029 ∨
     n = 0x202F ∨ n = 0x205F ∨ n = 0x3000) := by
  simp [pySpaceN, Bool.or_eq_true, Bool.and_eq_true, decide_eq_true_eq, beq_iff_eq]
  tauto

theorem pyWordN_not_space {n : Nat} (h : pyWordN n = true) : pySpaceN n = false := by
  simp only [pyWordN, Bool.or_eq_true, Bool.and_eq_true, decide_eq_true_eq,
    beq_iff_eq, bne_iff_ne] at h
  simp only [pySpaceN, Bool.or_eq_false_iff, Bool.and_eq_false_iff,
    decide_eq_false_iff_not, beq_eq_false_iff_ne]
  omega

theorem pyLowerN_space (n : Nat) : pySpaceN (pyLowerN n) = pySpaceN n := by
  unfold pyLowerN
  split
  · rename_i h
    have h1 : pySpaceN (n + 32) = false := by
      simp only [pySpaceN, Bool.or_eq_false_iff, Bool.and_eq_false_iff,
        decide_eq_false_iff_not, beq_eq_false_iff_ne]
      omega
    have h2 : pySpaceN n = false := by
      simp only [pySpaceN, Bool.or_eq_false_iff, Bool.and_eq_false_iff,
        decide_eq_false_iff_not, beq_eq_false_iff_ne]
      omega
    rw [h1, h2]
  · split
    · rename_i h h'
      have h1 : pySpaceN (n + 32) = false := by
        simp only [pySpaceN, Bool.or_eq_false_iff, Bool.and_eq_false_iff,
          decide_eq_false_iff_not, beq_eq_false_iff_ne]
        omega
      have h2 : pySpaceN n = false := by
        simp only [pySpaceN, Bool.or_eq_false_iff, Bool.and_eq_false_iff,
          decide_eq_false_iff_not, beq_eq_false_iff_ne]
        omega
      rw [h1, h2]
    · rfl

theorem pyLowerN_idem (n : Nat) : pyLowerN (pyLowerN n) = pyLowerN n := by
  unfold pyLowerN
  split
  · rename_i h
    have : ¬ (65 ≤ n + 32 ∧ n + 32 ≤ 90) := by omega
    rw [if_neg this]
    have : ¬ (0xC0 ≤ n + 32 ∧ n + 32 ≤ 0xDE ∧ n + 32 ≠ 0xD7) := by omega
    rw [if_neg this]
  · split
    · rename_i h h'
      have : ¬ (65 ≤ n + 32 ∧ n + 32 ≤ 90) := by omega
      rw [if_neg this]
      have : ¬ (0xC0 ≤ n + 32 ∧ n + 32 ≤ 0xDE ∧ n + 32 ≠ 0xD7) := by omega
      rw [if_neg this]
    · rfl

theorem hyphen_not_space : pySpaceN 45 = false := by decide

/-! ### Structural lemmas used for idempotence -/

theorem mem_collapseSpaces {c : Nat} :
    ∀ {l : List Nat}, c ∈ collapseSpaces l → c = 45 ∨ c ∈ l := by
  intro l
  induction l with
  | nil => intro h; simp [collapseSpaces] at h
  | cons a t ih =>
    cases t with
    | nil =>
      intro h
      simp only [collapseSpaces] at h
      split at h
      · simp at h; exact Or.inl h
      · simp at h; exact Or.inr (by simp [h])
    | cons d rest =>
      intro h
      simp only [collapseSpaces] at h
      split at h
      · split at h
        · rcases ih h with h' | h'
          · exact Or.inl h'
          · exact Or.inr (List.mem_cons_of_mem _ h')
        · rcases List.mem_cons.mp h with h' | h'
          · exact Or.inl h'
          · rcases ih h' with h'' | h''
            · exact Or.inl h''
            · exact Or.inr (List.mem_cons_of_mem _ h'')
      · rcases List.mem_cons.mp h with h' | h'
        · exact Or.inr (by simp [h'])
        · rcases ih h' with h'' | h''
          · exact Or.inl h''
          · exact Or.inr (List.mem_cons_of_mem _ h'')

theorem collapseSpaces_of_no_space :
    ∀ {l : List Nat}, (∀ c ∈ l, pySpaceN c = false) → collapseSpaces l = l := by
  intro l
  induction l with
  | nil => intro _; rfl
  | cons a t ih =>
    cases t with
    | nil =>
      intro h
      have := h a (by simp)
      simp [collapseSpaces, this]
    | cons d rest =>
      intro h
      have ha := h a (by simp)
      simp only [collapseSpaces, ha]
      simp only [Bool.false_eq_true, if_false]
      congr 1
      exact ih (fun c hc => h c (List.mem_cons_of_mem _ hc))

theorem dropWhile_eq_self_of_not {p : Nat → Bool} :
    ∀ {l : List Nat}, (∀ c ∈ l, p c = false) → l.dropWhile p = l := by
  intro l h
  cases l with
  | nil => rfl
  | cons a t =>
    have := h a (by simp)
    simp [List.dropWhile_cons, this]

theorem pyStrip_eq_self_of_not {l : List Nat}
    (h : ∀ c ∈ l, pySpaceN c = false) : pyStrip l = l := by
  unfold pyStrip
  rw [dropWhile_eq_self_of_not h]
  rw [dropWhile_eq_self_of_not (by intro c hc; exact h c (List.mem_reverse.mp hc))]
  exact List.reverse_reverse l

theorem map_eq_self_of_fix {f : Nat → Nat} :
    ∀ {l : List Nat}, (∀ c ∈ l, f c = c) → l.map f = l := by
  intro l h
  induction l with
  | nil => rfl
  | cons a t ih =>
    simp only [List.map_cons]
    rw [h a (by simp), ih (fun c hc => h c (List.mem_cons_of_mem _ hc))]

/-- Every codepoint of `normalize_tag s` is a word character or a hyphen. -/
theorem normalize_tag_chars {s : List Nat} {c : Nat} (h : c ∈ normalize_tag s) :
    (pyWordN c || c == 45) = true := by
  exact (List.mem_filter.mp h).2

/-- Every codepoint of `normalize_tag s` is a fixpoint of lowercasing. -/
theorem normalize_tag_lower_fix {s : List Nat} {c : Nat} (h : c ∈ normalize_tag s) :
    pyLowerN c = c := by
  have hmem : c ∈ collapseSpaces (pyLower (pyStrip s)) := (List.mem_filter.mp h).1
  rcases mem_collapseSpaces hmem with h45 | hmap
  · subst h45; rfl
  · rcases List.mem_map.mp hmap with ⟨d, _, hd⟩
    subst hd; exact pyLowerN_idem d

theorem normalize_tag_no_space {s : List Nat} {c : Nat} (h : c ∈ normalize_tag s) :
    pySpaceN c = false := by
  have := normalize_tag_chars h
  rcases Bool.or_eq_true _ _ |>.mp this with hw | h45
  · exact pyWordN_not_space hw
  · have : c = 45 := by simpa using h45
    subst this; exact hyphen_not_space

/-- Idempotence of `normalize_tag` (claim C7): re-normalizing is the identity. -/
theorem normalize_tag_idem (s : List Nat) :
    normalize_tag (normalize_tag s) = normalize_tag s := by
  set u := normalize_tag s with hu
  have hsp : ∀ c ∈ u, pySpaceN c = false := fun c hc => normalize_tag_no_space hc
  have hfix : ∀ c ∈ u, pyLowerN c = c := fun c hc => normalize_tag_lower_fix hc
  have hword : ∀ c ∈ u, (pyWordN c || c == 45) = true := fun c hc => normalize_tag_chars hc
  unfold normalize_tag
  rw [pyStrip_eq_self_of_not hsp]
  rw [show pyLower u = u from map_eq_self_of_fix hfix]
  rw [collapseSpaces_of_no_space hsp]
  exact List.filter_eq_self.mpr hword

/-- `str.strip()` and `str.lower()` commute: lowercasing never changes
whether a codepoint is whitespace. -/
theorem pyStrip_pyLower (s : List Nat) : pyStrip (pyLower s) = pyLower (pyStrip s) := by
  have hp : (pySpaceN ∘ pyLowerN) = pySpaceN := funext pyLowerN_space
  unfold pyStrip pyLower
  rw [List.dropWhile_map, hp, ← List.map_reverse, List.dropWhile_map, hp,
    ← List.map_reverse]

theorem normalize_tag_eq_amendedSpec (s : List Nat) :
    normalize_tag s = normalize_tag_amendedSpec s := by
  unfold normalize_tag normalize_tag_amendedSpec
  rw [pyStrip_pyLower]

/-! ## Claim theorems: C6 and C7 -/

/-- C6 counterexample: the claim "for every string token, `normalize_tag(token)`
equals the reference definition (lowercase, internal whitespace collapsed to
single hyphens, characters outside `[A-Za-z0-9_-]` removed)" is false on the
code.  On the token "café", `normalize_tag` keeps the Unicode word character
`é` (Python's `\w` is Unicode-aware), while the reference definition removes
it. -/
theorem C6_counterexample :
    normalize_tag (codes "café") = codes "café" ∧
    normalize_tag_spec (codes "café") = codes "caf" ∧
    normalize_tag (codes "café") ≠ normalize_tag_spec (codes "café") := by
  refine ⟨by decide, by decide, by decide⟩

/-- C6 (amended): for every string token, `normalize_tag(token)` equals the
reference definition with the character class `[A-Za-z0-9_-]` broadened to
Python's Unicode word characters together with the hyphen: the token
lowercased, internal whitespace runs collapsed to single hyphens, and every
character that is neither a Unicode word character nor a hyphen removed.  For
ASCII tokens this coincides with the original reference definition. -/
theorem C6_normalize_tag_matches_amended_reference (t : List Nat) :
    normalize_tag t = normalize_tag_amendedSpec t :=
  normalize_tag_eq_amendedSpec t

/-- C7: `normalize_tag` is total (it is a Lean function defined on every
codepoint sequence, including the empty one and non-ASCII text) and
idempotent: normalizing twice returns the same string as normalizing once. -/
theorem C7_normalize_tag_total_idempotent (t : List Nat) :
    normalize_tag (normalize_tag t) = normalize_tag t :=
  normalize_tag_idem t

/-! ## Doc cards (phase_c_clustering.py)

Embedding of `DocCardGenerator._normalize_tags` and the tag/bucket-key portion
of `DocCardGenerator.generate_card` (lines 57-132).  The card fields not
modelled here (`doc_id`, `scores`, `trigger`, `workflow_steps`, `artifacts`,
`issues`, `created_at`) are verbatim projections of the input extraction plus
a wall-clock timestamp; no claim refers to them. -/

/-- One tag through `_normalize_tags`' per-tag step:
`tag.lower().strip().replace(' ', '-')` (only the ASCII space is replaced). -/
def pcNormalizeTag (t : List Nat) : List Nat :=
  (pyStrip (pyLower t)).map (fun c => if c == 32 then 45 else c)

/-- `DocCardGenerator._normalize_tags`: skip falsy (empty) tags, normalize,
skip duplicates (first occurrence kept) and the literal "unknown". -/
def pcNormalizeTagsGo : List (List Nat) → List (List Nat) → List (List Nat)
  | [], _ => []
  | t :: rest, seen =>
    if t = [] then pcNormalizeTagsGo rest seen
    else
      let tl := pcNormalizeTag t
      if tl ∈ seen ∨ tl = codes "unknown" then pcNormalizeTagsGo rest seen
      else tl :: pcNormalizeTagsGo rest (tl :: seen)

def pcNormalizeTags (tags : List (List Nat)) : List (List Nat) :=
  pcNormalizeTagsGo tags []

/-- The raw tag lists read out of the extraction JSON by `generate_card`. -/
structure RawCardTags where
  domains : List (List Nat)
  patterns : List (List Nat)
  frameworks : List (List Nat)
  languages : List (List Nat)
  tools : List (List Nat)

/-- The normalized tag lists stored on a doc card. -/
structure CardTags where
  domains : List (List Nat)
  patterns : List (List Nat)
  frameworks : List (List Nat)
  languages : List (List Nat)
  tools : List (List Nat)

/-- The modelled part of a doc card. -/
structure DocCard where
  tags : CardTags
  bucket_key : List Nat

/-- Tag normalization and bucket-key derivation of
`DocCardGenerator.generate_card` (lines 73-106):
`primary_domain = tags['domains'][0] if tags['domains'] else 'unknown'`,
likewise for patterns, and `bucket_key = primary_domain + "__" + primary_pattern`. -/
def generate_card (raw : RawCardTags) : DocCard :=
  let tags : CardTags :=
    { domains := pcNormalizeTags raw.domains
      patterns := pcNormalizeTags raw.patterns
      frameworks := pcNormalizeTags raw.frameworks
      languages := pcNormalizeTags raw.languages
      tools := pcNormalizeTags raw.tools }
  let primary_domain := tags.domains.headD (codes "unknown")
  let primary_pattern := tags.patterns.headD (codes "unknown")
  { tags := tags
    bucket_key := primary_domain ++ codes "__" ++ primary_pattern }

/-- C9: the bucket key of every generated doc card is
`"{primary_domain}__{primary_pattern}"`, where each side is the first element
of the card's own normalized domains/patterns list, or "unknown" when that
list is empty; in particular the card built from
domains=["api-development", "testing"], patterns=[] has bucket key
"api-development__unknown". -/
theorem C9_bucket_key (raw : RawCardTags) :
    (generate_card raw).bucket_key =
      (generate_card raw).tags.domains.headD (codes "unknown") ++ codes "__" ++
        (generate_card raw).tags.patterns.headD (codes "unknown") ∧
    (generate_card
        { domains := [codes "api-development", codes "testing"],
          patterns := [], frameworks := [], languages := [], tools := [] }).bucket_key =
      codes "api-development__unknown" := by
  exact ⟨rfl, by decide⟩

/-! ## MD5 and `generate_doc_id` (layer1_extractor.py, lines 188-192)

`generate_doc_id(source_path, content)` returns
`f"{Path(source_path).stem}_{hashlib.md5(content.encode()).hexdigest()[:8]}"`.
The MD5 digest (RFC 1321, as computed by `hashlib.md5`) is embedded below over
byte lists, with 32-bit arithmetic carried out in `Nat` modulo `2^32`;
`content.encode()` is the UTF-8 encoding of the content string. -/

/-- UTF-8 encoding of a codepoint sequence (Python `str.encode()`). -/
def utf8Encode (s : List Nat) : List Nat :=
  (s.map (fun n =>
    if n < 0x80 then [n]
    else if n < 0x800 then [0xC0 + n / 64, 0x80 + n % 64]
    else if n < 0x10000 then
      [0xE0 + n / 4096, 0x80 + (n / 64) % 64, 0x80 + n % 64]
    else
      [0xF0 + n / 262144, 0x80 + (n / 4096) % 64, 0x80 + (n / 64) % 64,
        0x80 + n % 64])).flatten

def M32 : Nat := 4294967296

/-- 32-bit left rotation. -/
def rotl32 (x s : Nat) : Nat := ((x <<< s) % M32) ||| (x >>> (32 - s))

/-- Bitwise complement within 32 bits (arguments are < 2^32). -/
def not32 (x : Nat) : Nat := 4294967295 - x

/-- The 64 MD5 sine-derived constants. -/
def md5K : List Nat := [
  0xD76AA478, 0xE8C7B756, 0x242070DB, 0xC1BDCEEE,
  0xF57C0FAF, 0x4787C62A, 0xA8304613, 0xFD469501,
  0x698098D8, 0x8B44F7AF, 0xFFFF5BB1, 0x895CD7BE,
  0x6B901122, 0xFD987193, 0xA679438E, 0x49B40821,
  0xF61E2562, 0xC040B340, 0x265E5A51, 0xE9B6C7AA,
  0xD62F105D, 0x02441453, 0xD8A1E681, 0xE7D3FBC8,
  0x21E1CDE6, 0xC33707D6, 0xF4D50D87, 0x455A14ED,
  0xA9E3E905, 0xFCEFA3F8, 0x676F02D9, 0x8D2A4C8A,
  0xFFFA3942, 0x8771F681, 0x6D9D6122, 0xFDE5380C,
  0xA4BEEA44, 0x4BDECFA9, 0xF6BB4B60, 0xBEBFBC70,
  0x289B7EC6, 0xEAA127FA, 0xD4EF3085, 0x04881D05,
  0xD9D4D039, 0xE6DB99E5, 0x1FA27CF8, 0xC4AC5665,
  0xF4292244, 0x432AFF97, 0xAB9423A7, 0xFC93A039,
  0x655B59C3, 0x8F0CCC92, 0xFFEFF47D, 0x85845DD1,
  0x6FA87E4F, 0xFE2CE6E0, 0xA3014314, 0x4E0811A1,
  0xF7537E82, 0xBD3AF235, 0x2AD7D2BB, 0xEB86D391]

/-- The 64 MD5 per-round shift amounts. -/
def md5S : List Nat := [
  7, 12, 17, 22, 7, 12, 17, 22, 7, 12, 17, 22, 7, 12, 17, 22,
  5, 9, 14, 20, 5, 9, 14, 20, 5, 9, 14, 20, 5, 9, 14, 20,
  4, 11, 16, 23, 4, 11, 16, 23, 4, 11, 16, 23, 4, 11, 16, 23,
  6, 10, 15, 21, 6, 10, 15, 21, 6, 10, 15, 21, 6, 10, 15, 21]

/-- Little-endian byte decomposition (k bytes). -/
def leBytes : Nat → Nat → List Nat
  | _, 0 => []
  | n, k + 1 => n % 256 :: leBytes (n / 256) k

/-- MD5 padding: append 0x80, zero-pad to 56 mod 64, append the 64-bit
little-endian bit length. -/
def md5pad (msg : List Nat) : List Nat :=
  let len := msg.length
  msg ++ [0x80] ++ List.replicate ((120 - (len + 1) % 64) % 64) 0 ++
    leBytes ((len * 8) % 2 ^ 64) 8

/-- Group bytes into 32-bit little-endian words. -/
def toWords : List Nat → List Nat
  | b0 :: b1 :: b2 :: b3 :: rest =>
    (b0 + 256 * b1 + 65536 * b2 + 16777216 * b3) :: toWords rest
  | _ => []

/-- Split into 64-byte chunks. -/
def chunks64 (l : List Nat) : List (List Nat) :=
  if h : l = [] then []
  else l.take 64 :: chunks64 (l.drop 64)
termination_by l.length
decreasing_by
  have := List.length_pos.mpr h
  simp [List.length_drop]
  omega

/-- One MD5 operation (round `i`) on state `(a, b, c, d)` with message words `m`. -/
def md5Op (m : List Nat) (st : Nat × Nat × Nat × Nat) (i : Nat) :
    Nat × Nat × Nat × Nat :=
  let (a, b, c, d) := st
  let fg : Nat × Nat :=
    if i < 16 then ((b &&& c) ||| (not32 b &&& d), i)
    else if i < 32 then ((d &&& b) ||| (not32 d &&& c), (5 * i + 1) % 16)
    else if i < 48 then (b ^^^ c ^^^ d, (3 * i + 5) % 16)
    else (c ^^^ (b ||| not32 d), (7 * i) % 16)
  let f := (fg.1 + a + md5K.getD i 0 + m.getD fg.2 0) % M32
  (d, (b + rotl32 f (md5S.getD i 0)) % M32, b, c)

/-- Process one 64-byte chunk. -/
def md5Chunk (st : Nat × Nat × Nat × Nat) (chunk : List Nat) :
    Nat × Nat × Nat × Nat :=
  let m := toWords chunk
  let r := (List.range 64).foldl (md5Op m) st
  ((st.1 + r.1) % M32, (st.2.1 + r.2.1) % M32,
    (st.2.2.1 + r.2.2.1) % M32, (st.2.2.2 + r.2.2.2) % M32)

/-- MD5 digest (16 bytes) of a byte list. -/
def md5Bytes (msg : List Nat) : List Nat :=
  let st := (chunks64 (md5pad msg)).foldl md5Chunk
    (0x67452301, 0xEFCDAB89, 0x98BADCFE, 0x10325476)
  leBytes st.1 4 ++ leBytes st.2.1 4 ++ leBytes st.2.2.1 4 ++ leBytes st.2.2.2 4

/-- Lowercase hex digit codepoint. -/
def hexDigit (n : Nat) : Nat := if n < 10 then 48 + n else 87 + n

/-- `hashlib.md5(..).hexdigest()` as a codepoint list. -/
def md5hex (msg : List Nat) : List Nat :=
  ((md5Bytes msg).map (fun b => [hexDigit (b / 16), hexDigit (b % 16)])).flatten

/-- `PurePath` name of a POSIX path: last component after dropping empty and
"." components. -/
def pathName (p : List Nat) : List Nat :=
  let comps := (p.splitOn 47).filter (fun c => c ≠ [] ∧ c ≠ [46])
  comps.getLastD []

/-- `PurePath.stem`: the name minus its final suffix; a dot at position 0 or
at the very end does not start a suffix. -/
def pathStem (p : List Nat) : List Nat :=
  let name := pathName p
  match name.reverse.findIdx? (fun c => c == 46) with
  | none => name
  | some j =>
    let i := name.length - 1 - j
    if 0 < i ∧ i < name.length - 1 then name.take i else name

/-- `generate_doc_id` (layer1_extractor.py, lines 188-192):
`f"{Path(source_path).stem}_{md5(content.encode()).hexdigest()[:8]}"`. -/
def generate_doc_id (source_path content : List Nat) : List Nat :=
  pathStem source_path ++ [95] ++ (md5hex (utf8Encode content)).take 8

/-- C1: `generate_doc_id` is deterministic — two invocations on identical
`source_path` and identical `content` return the identical doc id string. -/
theorem C1_generate_doc_id_deterministic (p1 c1 p2 c2 : List Nat)
    (hp : p1 = p2) (hc : c1 = c2) :
    generate_doc_id p1 c1 = generate_doc_id p2 c2 := by
  subst hp; subst hc; rfl

/-- Witness for C1 at a concrete path and content. -/
theorem C1_witness :
    codes "notes/SR-PTD-001.md" = codes "notes/SR-PTD-001.md" ∧
    codes "some content" = codes "some content" ∧
    generate_doc_id (codes "notes/SR-PTD-001.md") (codes "some content") =
      generate_doc_id (codes "notes/SR-PTD-001.md") (codes "some content") :=
  ⟨rfl, rfl, C1_generate_doc_id_deterministic _ _ _ _ rfl rfl⟩

/-- C10: `generate_doc_id` depends only on the final path component's stem and
on the content: any two source paths with equal stems receive equal doc ids
for the same content, whatever their directory components. -/
theorem C10_doc_id_depends_only_on_stem (p1 p2 c : List Nat)
    (h : pathStem p1 = pathStem p2) :
    generate_doc_id p1 c = generate_doc_id p2 c := by
  unfold generate_doc_id
  rw [h]

/-- Witness for C10: two distinct files in different directories with the same
filename and identical content collide. -/
theorem C10_witness :
    codes "dirA/notes.md" ≠ codes "dirB/notes.md" ∧
    pathStem (codes "dirA/notes.md") = pathStem (codes "dirB/notes.md") ∧
    generate_doc_id (codes "dirA/notes.md") (codes "same content") =
      generate_doc_id (codes "dirB/notes.md") (codes "same content") :=
  ⟨by decide, by decide,
    C10_doc_id_depends_only_on_stem _ _ _ (by decide)⟩

/-! ## Workflow step extraction (layer1_extractor.py, lines 432-473)

`ContentExtractor.extract_workflow` extracts numbered steps with
`re.findall(r'^\s*(\d+)\.\s+(.+?)(?=\n\s*\d+\.|$)', content, re.M | re.S)`
(pattern 1) and, only when that yields no steps, with
`re.findall(r'^(\d+)\.\s*(.+)$', content, re.M)` (pattern 2); then
deduplicates `(number, text)` pairs and sorts by number.  The two `findall`s
are embedded as scanners.  With `re.MULTILINE`, the lookahead `(?=\n\s*\d+\.|$)`
succeeds exactly when the next character is a newline or the input is
exhausted, so the lazy `(.+?)` group always stops at the first newline; the
embedded scanners also reproduce the engine's backtracking of `\s+`/`\s*` into
the capture group when the input ends in whitespace.  Only the step-extraction
portion (lines 443-473) is modelled; lines 475-499 fill the separate
`decision_points` field, which no claim references. -/

def pyDigitN (n : Nat) : Bool := 48 ≤ n && n ≤ 57

def digitsToNat (ds : List Nat) : Nat := ds.foldl (fun a d => a * 10 + (d - 48)) 0

/-- Index of the last element that is not a newline. -/
def lastNonNewline (l : List Nat) : Option Nat :=
  match l.reverse.findIdx? (fun c => c ≠ 10) with
  | none => none
  | some j => some (l.length - 1 - j)

/-- One attempted match of pattern 1 at a `^` position. -/
def tryMatch1 (s : List Nat) : Option (Nat × List Nat × List Nat) :=
  let s1 := s.dropWhile pySpaceN
  let ds := s1.takeWhile pyDigitN
  if ds = [] then none
  else
    match s1.dropWhile pyDigitN with
    | 46 :: rest2 =>
      let sp := rest2.takeWhile pySpaceN
      if sp = [] then none
      else
        let rest3 := rest2.dropWhile pySpaceN
        if rest3 = [] then
          if 2 ≤ sp.length then some (digitsToNat ds, [sp.getLastD 0], [])
          else none
        else
          let content := rest3.takeWhile (fun c => c ≠ 10)
          some (digitsToNat ds, content, rest3.drop content.length)
    | _ => none

/-- One attempted match of pattern 2 at a `^` position. -/
def tryMatch2 (s : List Nat) : Option (Nat × List Nat × List Nat) :=
  let ds := s.takeWhile pyDigitN
  if ds = [] then none
  else
    match s.dropWhile pyDigitN with
    | 46 :: rest2 =>
      let sp := rest2.takeWhile pySpaceN
      let rest3 := rest2.dropWhile pySpaceN
      if rest3 = [] then
        match lastNonNewline sp with
        | none => none
        | some k =>
          let content := (sp.drop k).takeWhile (fun c => c ≠ 10)
          some (digitsToNat ds, content, (sp.drop k).drop content.length)
      else
        let content := rest3.takeWhile (fun c => c ≠ 10)
        some (digitsToNat ds, content, rest3.drop content.length)
    | _ => none

/-- `re.findall` scan: try the pattern at each position where `^` holds
(string start, or just after a newline), continuing after each match. -/
def findallGo (tryM : List Nat → Option (Nat × List Nat × List Nat)) :
    Nat → List Nat → Bool → List (Nat × List Nat)
  | 0, _, _ => []
  | _, [], _ => []
  | fuel + 1, c :: rest, atStart =>
    if atStart then
      match tryM (c :: rest) with
      | some (n, txt, rem) => (n, txt) :: findallGo tryM fuel rem false
      | none => findallGo tryM fuel rest (c == 10)
    else findallGo tryM fuel rest (c == 10)

def findall1 (s : List Nat) : List (Nat × List Nat) :=
  findallGo tryMatch1 s.length s true

def findall2 (s : List Nat) : List (Nat × List Nat) :=
  findallGo tryMatch2 s.length s true

/-- First-occurrence deduplication of `(number, text)` pairs (`set(steps)`;
CPython's set iteration order for ties is arbitrary, so ties between equal
numbers with different texts are modelled in first-occurrence order). -/
def dedupPairs : List (Nat × List Nat) → List (Nat × List Nat)
  | [] => []
  | p :: rest => p :: (dedupPairs rest).filter (fun q => q ≠ p)

/-- Stable insertion of a pair by step number. -/
def insertByNum (p : Nat × List Nat) : List (Nat × List Nat) → List (Nat × List Nat)
  | [] => [p]
  | q :: rest => if p.1 ≤ q.1 then p :: q :: rest else q :: insertByNum p rest

/-- Stable sort by step number (Python's `sorted` with `key=lambda x: x[0]`
is stable). -/
def sortByNum : List (Nat × List Nat) → List (Nat × List Nat)
  | [] => []
  | p :: rest => insertByNum p (sortByNum rest)

/-- The step-extraction portion of `ContentExtractor.extract_workflow`:
pattern-1 matches cleaned by `text.split('\n')[0].strip()` and filtered
(nonempty, not starting with a hyphen); pattern 2 used only when pattern 1
produced no steps; `sorted(set(steps), key=first)`; empty texts dropped when
building `high_level_steps`. -/
def extract_workflow_high_level_steps (content : List Nat) : List (List Nat) :=
  let steps1 := (findall1 content).filterMap (fun p =>
    let ct := pyStrip (p.2.takeWhile (fun c => c ≠ 10))
    if ct ≠ [] ∧ ct.head? ≠ some 45 then some (p.1, ct) else none)
  let steps := if steps1 = [] then
      (findall2 content).map (fun p => (p.1, pyStrip p.2))
    else steps1
  let sorted := sortByNum (dedupPairs steps)
  sorted.filterMap (fun p => if p.2 ≠ [] then some p.2 else none)

/-- C5: on the exact input `"1. Read file\n2. Run tests\n3. Fix bug"` the
extracted high-level steps are `["Read file", "Run tests", "Fix bug"]` in that
order, and the strict pattern-1 scan itself matched (so the looser fallback
pattern was not consulted). -/
theorem C5_workflow_steps :
    extract_workflow_high_level_steps (codes "1. Read file\n2. Run tests\n3. Fix bug") =
      [codes "Read file", codes "Run tests", codes "Fix bug"] ∧
    findall1 (codes "1. Read file\n2. Run tests\n3. Fix bug") ≠ [] := by
  refine ⟨by decide, by decide⟩

/-! ## Section detection and splitting (layer1_extractor.py, lines 199-289)

`SectionParser._detect_format` chooses a dialect by case-insensitive substring
scans; `_match_section_header` tests a line against the active dialect's
ordered header regexes (`re.match` with `re.IGNORECASE`, i.e. a prefix match);
`extract_sections` folds over the lines.  Lines are matched after
lowercasing both the line and the (ASCII) pattern literals, which is
equivalent to `re.IGNORECASE`.  In each pattern an optional `[:.]?` or a
trailing `[:.]?` before the pattern end cannot affect whether the pattern
matches, and a `.*?LIT` tail (with `.` not matching newlines, on input lines
that contain none) succeeds exactly when `LIT` occurs in the remainder; the
embeddings below use these equivalences. -/

/-- Substring containment (Python's `in` on strings). -/
def containsSub : List Nat → List Nat → Bool
  | _, [] => true
  | [], _ :: _ => false
  | h :: t, n :: m => (n :: m).isPrefixOf (h :: t) || containsSub t (n :: m)

/-- Match a literal prefix, returning the remainder. -/
def lit (w s : List Nat) : Option (List Nat) :=
  if w.isPrefixOf s then some (s.drop w.length) else none

/-- `Section\s*X` after the heading hashes: the literal "section", optional
whitespace, then the given letter. -/
def sectionLetter (letter : Nat) (r : List Nat) : Bool :=
  match lit (codes "section") r with
  | some r2 => (r2.dropWhile pySpaceN).head? == some letter
  | none => false

/-- `^#\s*(?:Section\s*A[:.]?|SR-PTD|Task Doc).*?(?:Header|Skill Trigger)`
on a lowercased line. -/
def matchFullHeaderPat (l : List Nat) : Bool :=
  match lit (codes "#") l with
  | none => false
  | some r0 =>
    let r := r0.dropWhile pySpaceN
    let tail : List Nat → Bool := fun r2 =>
      containsSub r2 (codes "header") || containsSub r2 (codes "skill trigger")
    (match lit (codes "section") r with
     | some r2 =>
       (match lit [97] (r2.dropWhile pySpaceN) with
        | some r3 => tail r3
        | none => false)
     | none => false) ||
    (match lit (codes "sr-ptd") r with
     | some r2 => tail r2
     | none => false) ||
    (match lit (codes "task doc") r with
     | some r2 => tail r2
     | none => false)

/-- `^##\s*` then one of the given checks, on a lowercased line. -/
def matchHH (checks : List (List Nat → Bool)) (l : List Nat) : Bool :=
  match lit (codes "##") l with
  | none => false
  | some r0 =>
    let r := r0.dropWhile pySpaceN
    checks.any (fun c => c r)

def pfx (w : String) : List Nat → Bool := fun r => (codes w).isPrefixOf r

/-- `FULL_SECTION_PATTERNS`, in dictionary (insertion) order. -/
def matchFullPattern (l : List Nat) : Option String :=
  if matchFullHeaderPat l then some "header"
  else if (match lit (codes "##") l with
    | none => false
    | some r0 =>
      let r := r0.dropWhile pySpaceN
      sectionLetter 98 r || pfx "context" r || pfx "inputs" r ||
        pfx "problem statement" r) then some "context"
  else if matchHH [fun r => sectionLetter 99 r, pfx "workflow", pfx "work performed"] l then
    some "workflow"
  else if matchHH [fun r => sectionLetter 100 r, pfx "knowledge", pfx "knowledge used",
      pfx "knowledge accessed"] l then some "knowledge"
  else if matchHH [fun r => sectionLetter 101 r, pfx "code", pfx "code written"] l then
    some "code"
  else if matchHH [fun r => sectionLetter 102 r, pfx "output", pfx "artifacts",
      pfx "files"] l then some "outputs"
  else if matchHH [fun r => sectionLetter 103 r, pfx "issue", pfx "issues",
      pfx "problems"] l then some "issues"
  else if matchHH [fun r => sectionLetter 104 r, pfx "verification", pfx "validation",
      pfx "test"] l then some "verification"
  else if matchHH [fun r => sectionLetter 105 r,
      fun r => match lit (codes "skill") r with
        | some r2 => containsSub r2 (codes "assessment")
        | none => false,
      pfx "reusability"] l then some "skill_assessment"
  else if matchHH [fun r => sectionLetter 106 r, pfx "tags"] l then some "tags"
  else none

/-- `QUICK_SECTION_PATTERNS`, in dictionary (insertion) order. -/
def matchQuickPattern (l : List Nat) : Option String :=
  if matchHH [pfx "trigger"] l then some "trigger"
  else if matchHH [pfx "workflow"] l then some "workflow"
  else if matchHH [pfx "key decisions"] l then some "decisions"
  else if matchHH [pfx "knowledge"] l then some "knowledge"
  else if matchHH [pfx "code"] l then some "code"
  else if matchHH [pfx "output"] l then some "outputs"
  else if matchHH [pfx "issues"] l then some "issues"
  else if matchHH [pfx "skill potential"] l then some "skill_potential"
  else if matchHH [pfx "tags"] l then some "tags"
  else none

/-- `SectionParser._match_section_header`: the full patterns when the detected
format is "full", the quick patterns otherwise. -/
def matchSectionHeader (fmt : String) (line : List Nat) : Option String :=
  let l := pyLower line
  if fmt == "full" then matchFullPattern l else matchQuickPattern l

/-- `SectionParser._detect_format` (lines 235-254).  The two metadata probes
use the raw (uncased) first 500/200 characters, exactly as the source does. -/
def detect_format (content : List Nat) : String :=
  if containsSub (pyLower content) (codes "section a") ||
     containsSub (pyLower content) (codes "skill trigger profile")
  then "full"
  else if (containsSub (pyLower content) (codes "| **type**:") ||
           containsSub (content.take 500) (codes "**date**:")) &&
          (containsSub (pyLower content) (codes "## trigger") &&
           containsSub (pyLower content) (codes "## workflow"))
  then "quick"
  else if containsSub (pyLower content) (codes "task doc") ||
          containsSub (content.take 200) (codes "- **date**:")
  then "legacy"
  else "quick"

/-- `content.split('\n')`. -/
def splitNl : List Nat → List (List Nat)
  | [] => [[]]
  | c :: rest =>
    if c == 10 then [] :: splitNl rest
    else (c :: (splitNl rest).headD []) :: (splitNl rest).tail

/-- `'\n'.join`. -/
def joinNl (ls : List (List Nat)) : List Nat := List.intercalate [10] ls

/-- Python dict assignment on an insertion-ordered association list:
overwrite the value if the key exists, else append. -/
def upsert (m : List (String × List Nat)) (k : String) (v : List Nat) :
    List (String × List Nat) :=
  if m.any (fun p => p.1 == k) then m.map (fun p => if p.1 == k then (k, v) else p)
  else m ++ [(k, v)]

def hasKey (m : List (String × List Nat)) (k : String) : Bool :=
  m.any (fun p => p.1 == k)

/-- The fold of `SectionParser.extract_sections` (lines 256-278): a matching
line saves the buffered section (if nonempty) and starts a new one named by
the match; other lines append to the buffer; the leading unnamed span runs
under the name "header"; the final buffer is saved at the end.  Saved text is
`'\n'.join(buffer).strip()`. -/
def extract_sections_go (fmt : String) :
    List (List Nat) → String → List (List Nat) → List (String × List Nat) →
      List (String × List Nat)
  | [], cur, buf, secs =>
    if buf ≠ [] then upsert secs cur (pyStrip (joinNl buf)) else secs
  | line :: rest, cur, buf, secs =>
    match matchSectionHeader fmt line with
    | some name =>
      let secs' := if buf ≠ [] then upsert secs cur (pyStrip (joinNl buf)) else secs
      extract_sections_go fmt rest name [line] secs'
    | none => extract_sections_go fmt rest cur (buf ++ [line]) secs

/-- `SectionParser.extract_sections` on a document, using the detected format
(as in `SectionParser.__init__`). -/
def extract_sections (content : List Nat) : List (String × List Nat) :=
  extract_sections_go (detect_format content) (splitNl content) "header" [] []

/-! ### Header-presence lemmas for C4 -/

theorem hasKey_upsert_self (m : List (String × List Nat)) (k : String) (v : List Nat) :
    hasKey (upsert m k v) k = true := by
  unfold upsert hasKey
  split
  · rename_i h
    rcases List.any_eq_true.mp h with ⟨p, hp, hpk⟩
    refine List.any_eq_true.mpr ⟨(k, v), ?_, by simp⟩
    refine List.mem_map.mpr ⟨p, hp, ?_⟩
    simp [hpk]
  · refine List.any_eq_true.mpr ⟨(k, v), by simp, by simp⟩

theorem hasKey_upsert_mono {m : List (String × List Nat)} {k : String}
    (h : hasKey m k = true) (k' : String) (v : List Nat) :
    hasKey (upsert m k' v) k = true := by
  unfold upsert
  rcases List.any_eq_true.mp h with ⟨p, hp, hpk⟩
  split
  · refine List.any_eq_true.mpr ?_
    by_cases hpk' : p.1 = k'
    · have hk : p.1 = k := eq_of_beq hpk
      exact ⟨(k', v), List.mem_map.mpr ⟨p, hp, by simp [hpk']⟩, by simp [← hpk', hk]⟩
    · exact ⟨p, List.mem_map.mpr ⟨p, hp, by simp [hpk']⟩, hpk⟩
  · exact List.any_eq_true.mpr ⟨p, List.mem_append_left _ hp, hpk⟩

/-- Invariant: once the running section is "header" with a nonempty buffer, or
"header" is already saved, the final section map contains "header". -/
theorem go_header_invariant (fmt : String) :
    ∀ (lines : List (List Nat)) (cur : String) (buf : List (List Nat))
      (secs : List (String × List Nat)),
      ((cur = "header" ∧ buf ≠ []) ∨ hasKey secs "header" = true) →
      hasKey (extract_sections_go fmt lines cur buf secs) "header" = true := by
  intro lines
  induction lines with
  | nil =>
    intro cur buf secs h
    rcases h with ⟨hc, hb⟩ | hs
    · subst hc
      simp only [extract_sections_go, if_pos hb]
      exact hasKey_upsert_self _ _ _
    · simp only [extract_sections_go]
      split
      · exact hasKey_upsert_mono hs _ _
      · exact hs
  | cons line rest ih =>
    intro cur buf secs h
    simp only [extract_sections_go]
    cases hm : matchSectionHeader fmt line with
    | some name =>
      simp only []
      apply ih
      right
      rcases h with ⟨hc, hb⟩ | hs
      · subst hc
        simp only [if_pos hb]
        exact hasKey_upsert_self _ _ _
      · split
        · exact hasKey_upsert_mono hs _ _
        · exact hs
    | none =>
      apply ih
      rcases h with ⟨hc, hb⟩ | hs
      · exact Or.inl ⟨hc, by simp⟩
      · exact Or.inr hs

theorem splitNl_ne_nil (content : List Nat) : splitNl content ≠ [] := by
  cases content with
  | nil => simp [splitNl]
  | cons c rest =>
    simp only [splitNl]
    split <;> simp

/-- If the document's first line matches no section pattern, or matches the
header pattern itself, the extracted sections contain "header". -/
theorem extract_sections_header_of_first (content : List Nat)
    (h : matchSectionHeader (detect_format content) ((splitNl content).headD []) = none ∨
         matchSectionHeader (detect_format content) ((splitNl content).headD []) =
           some "header") :
    hasKey (extract_sections content) "header" = true := by
  unfold extract_sections
  rcases hl : splitNl content with _ | ⟨l0, rest⟩
  · exact absurd hl (splitNl_ne_nil content)
  · rw [hl] at h
    simp only [List.headD_cons] at h
    simp only [extract_sections_go]
    rcases h with h | h
    · rw [h]
      exact go_header_invariant _ _ _ _ _ (Or.inl ⟨rfl, by simp⟩)
    · rw [h]
      simp only [if_neg (by simp : ¬ (([] : List (List Nat)) ≠ []))]
      exact go_header_invariant _ _ _ _ _ (Or.inl ⟨rfl, by simp⟩)

/-! ### Claim C4 -/

/-- The claim's "full-dialect section marker": the case-insensitive scan of
`_detect_format` finds "section a" or "skill trigger profile". -/
def fullDialectMarker (content : List Nat) : Bool :=
  containsSub (pyLower content) (codes "section a") ||
  containsSub (pyLower content) (codes "skill trigger profile")

/-- The claim's "subsection marker": some line of the document matches a
full-dialect section pattern other than the header pattern. -/
def hasFullSubsectionLine (content : List Nat) : Bool :=
  (splitNl content).any (fun l =>
    match matchSectionHeader "full" l with
    | some name => name != "header"
    | none => false)

/-- C4 counterexample: a document carrying a full-dialect marker and a
subsection marker whose extracted sections do NOT contain "header".  Its first
line is itself a (non-header) section marker, so the leading buffer is empty
and no "header" entry is ever saved; the claim as stated is false on it. -/
theorem C4_counterexample :
    fullDialectMarker (codes "## Section B: Context\nsee section a") = true ∧
    hasFullSubsectionLine (codes "## Section B: Context\nsee section a") = true ∧
    detect_format (codes "## Section B: Context\nsee section a") = "full" ∧
    hasKey (extract_sections (codes "## Section B: Context\nsee section a"))
      "header" = false := by
  refine ⟨by decide, by decide, by decide, by decide⟩

/-- C4 (amended): every document containing a full-dialect section marker
together with a subsection marker is classified "full"; and its extracted
sections contain the key "header" provided the document's first line is not
itself a non-header section marker (it matches no full-dialect pattern, or
matches the header pattern). -/
theorem C4_full_format_and_header (content : List Nat)
    (h1 : fullDialectMarker content = true)
    (h2 : hasFullSubsectionLine content = true)
    (h3 : matchSectionHeader "full" ((splitNl content).headD []) = none ∨
          matchSectionHeader "full" ((splitNl content).headD []) = some "header") :
    detect_format content = "full" ∧
    hasKey (extract_sections content) "header" = true := by
  have hf : detect_format content = "full" := by
    unfold fullDialectMarker at h1
    unfold detect_format
    rw [if_pos h1]
  refine ⟨hf, ?_⟩
  apply extract_sections_header_of_first
  rw [hf]
  exact h3

/-- Witness for C4 on a well-formed full document. -/
theorem C4_witness :
    fullDialectMarker (codes "# Section A: Header\n## Section B: Context\nbody") = true ∧
    hasFullSubsectionLine (codes "# Section A: Header\n## Section B: Context\nbody") = true ∧
    detect_format (codes "# Section A: Header\n## Section B: Context\nbody") = "full" ∧
    hasKey (extract_sections (codes "# Section A: Header\n## Section B: Context\nbody"))
      "header" = true :=
  ⟨by decide, by decide,
    (C4_full_format_and_header _ (by decide) (by decide) (Or.inr (by decide))).1,
    (C4_full_format_and_header _ (by decide) (by decide) (Or.inr (by decide))).2⟩

/-! ## Tag extraction (layer1_extractor.py, lines 747-805) and warnings (1015-1037)

`ContentExtractor.extract_tags` runs six `re.search`es of the shape
`(?:\*\*)?LABEL(?:\*\*)?:\s*([^|\n]+)` (IGNORECASE) over the tags text, splits
each capture on `[,;]`, normalizes, and deduplicates.  The searches are
embedded as scanners over the lowercased text (the capture is consumed only by
lowercasing operations downstream, so matching on the lowercased text is
observationally equivalent).  `\s*` before the capture is greedy and may cross
newlines; when the following character is `|` or the input ends, the engine
backtracks `\s*` to its last non-newline character, which then becomes the
capture — the embedding reproduces this. -/

/-- Consume an optional literal. -/
def optLit (w s : List Nat) : List Nat :=
  if w.isPrefixOf s then s.drop w.length else s

/-- `(?:\*\*)?VARIANT(?:\*\*)?:` at the current position; at most one variant
can complete (they are followed by `:`), so the first full match is the match. -/
def plainLabelAt (variants : List (List Nat)) (s : List Nat) : Option (List Nat) :=
  let s1 := optLit (codes "**") s
  variants.findSome? (fun w =>
    match lit w s1 with
    | some r => lit (codes ":") (optLit (codes "**") r)
    | none => none)

/-- `(?:\*\*)?(?:External\s*)?Services?(?:\*\*)?:` at the current position. -/
def serviceLabelAt (s : List Nat) : Option (List Nat) :=
  let s1 := optLit (codes "**") s
  let s2 := match lit (codes "external") s1 with
    | some r => r.dropWhile pySpaceN
    | none => s1
  [codes "services", codes "service"].findSome? (fun w =>
    match lit w s2 with
    | some r => lit (codes ":") (optLit (codes "**") r)
    | none => none)

/-- The `\s*([^|\n]+)` tail after the colon, with the engine's backtracking of
`\s*` when the capture cannot start after the maximal munch. -/
def captureAfterColon (r : List Nat) : Option (List Nat) :=
  let sp := r.takeWhile pySpaceN
  let r2 := r.dropWhile pySpaceN
  if r2 ≠ [] ∧ r2.head? ≠ some 124 then
    some (r2.takeWhile (fun c => c != 124 && c != 10))
  else
    match lastNonNewline sp with
    | some k => some [sp.getD k 0]
    | none => none

/-- `re.search`: try the label at each start position, left to right; a
position where the label matches but the capture fails is skipped, as in the
engine. -/
def searchLabel (labelAt : List Nat → Option (List Nat)) : List Nat → Option (List Nat)
  | [] => none
  | c :: rest =>
    match labelAt (c :: rest) with
    | some r =>
      match captureAfterColon r with
      | some cap => some cap
      | none => searchLabel labelAt rest
    | none => searchLabel labelAt rest

def searchLanguages (cl : List Nat) : Option (List Nat) :=
  searchLabel (plainLabelAt [codes "languages", codes "language"]) cl

def searchFrameworks (cl : List Nat) : Option (List Nat) :=
  searchLabel (plainLabelAt [codes "frameworks/libs", codes "frameworks/lib",
    codes "frameworks", codes "framework/libs", codes "framework/lib",
    codes "framework"]) cl

def searchDomains (cl : List Nat) : Option (List Nat) :=
  searchLabel (plainLabelAt [codes "domains", codes "domain"]) cl

def searchServices (cl : List Nat) : Option (List Nat) :=
  searchLabel serviceLabelAt cl

def searchPatterns (cl : List Nat) : Option (List Nat) :=
  searchLabel (plainLabelAt [codes "patterns", codes "pattern"]) cl

def searchTools (cl : List Nat) : Option (List Nat) :=
  searchLabel (plainLabelAt [codes "tools", codes "tool", codes "operational"]) cl

/-- `re.split(r'[,;]', s)`. -/
def splitSep : List Nat → List (List Nat)
  | [] => [[]]
  | c :: rest =>
    if c == 44 || c == 59 then [] :: splitSep rest
    else (c :: (splitSep rest).headD []) :: (splitSep rest).tail

/-- `[normalize_tag(t) for t in re.split(r'[,;]', cap) if t.strip()]`. -/
def tagsFromCapture (cap : List Nat) : List (List Nat) :=
  ((splitSep cap).filter (fun t => pyStrip t ≠ [])).map normalize_tag

/-- The services variant additionally drops tokens equal to "none"
(`t.strip().lower() != 'none'`). -/
def serviceTagsFromCapture (cap : List Nat) : List (List Nat) :=
  ((splitSep cap).filter (fun t => pyStrip t ≠ [] ∧
    pyLower (pyStrip t) ≠ codes "none")).map normalize_tag

/-- `deduplicate_list` (lines 176-185): keep the first occurrence, comparing
by `item.lower().strip()`. -/
def deduplicate_list_go : List (List Nat) → List (List Nat) → List (List Nat)
  | [], _ => []
  | it :: rest, seen =>
    let nrm := pyStrip (pyLower it)
    if nrm ∈ seen then deduplicate_list_go rest seen
    else it :: deduplicate_list_go rest (nrm :: seen)

def deduplicate_list (l : List (List Nat)) : List (List Nat) :=
  deduplicate_list_go l []

/-- The six tag lists of an extraction (`Tags` dataclass; the `safety_risk`
field is never assigned by `extract_tags` and is not modelled). -/
structure Tags where
  languages : List (List Nat)
  frameworks : List (List Nat)
  tools : List (List Nat)
  domains : List (List Nat)
  patterns : List (List Nat)
  services : List (List Nat)
deriving DecidableEq

def tagsOfSearch (o : Option (List Nat)) : List (List Nat) :=
  match o with
  | some cap => tagsFromCapture cap
  | none => []

/-- `ContentExtractor.extract_tags`. -/
def extract_tags (content : List Nat) : Tags :=
  { languages := deduplicate_list (tagsOfSearch (searchLanguages (pyLower content)))
    frameworks := deduplicate_list (tagsOfSearch (searchFrameworks (pyLower content)))
    tools := deduplicate_list (tagsOfSearch (searchTools (pyLower content)))
    domains := deduplicate_list (tagsOfSearch (searchDomains (pyLower content)))
    patterns := deduplicate_list (tagsOfSearch (searchPatterns (pyLower content)))
    services := deduplicate_list
      (match searchServices (pyLower content) with
       | some cap => serviceTagsFromCapture cap
       | none => []) }

/-- `self.content[-1000:]`. -/
def lastNchars (k : Nat) (l : List Nat) : List Nat := l.drop (l.length - k)

/-- The text handed to `extract_tags` by `SRPTDExtractor.extract` (lines
1004-1008): the tags section (empty default) plus a newline plus the last
1000 characters of the whole document. -/
def tagsContent (content : List Nat) : List Nat :=
  ((extract_sections content).lookup "tags").getD [] ++ 10 :: lastNchars 1000 content

/-- The tags of the extraction produced for a document. -/
def extractionTags (content : List Nat) : Tags := extract_tags (tagsContent content)

/-- The extraction fields consulted by `_generate_warnings`; the other
extraction fields do not influence the warning list.  `code_blocks` entries
are abstracted to their code text. -/
structure ExtractionView where
  metadata_date : Option (List Nat)
  trigger_what_triggered : Option (List Nat)
  high_level_steps : List (List Nat)
  code_blocks : List (List Nat)
  tags : Tags

/-- Python truthiness of an optional string field (`None` and `""` are falsy). -/
def optStrFalsy : Option (List Nat) → Bool
  | none => true
  | some s => s.isEmpty

/-- `SRPTDExtractor._generate_warnings` (lines 1015-1037). -/
def generate_warnings (e : ExtractionView) : List (List Nat) :=
  (if optStrFalsy e.metadata_date then [codes "Missing: metadata.date"] else []) ++
  (if optStrFalsy e.trigger_what_triggered then
    [codes "Missing: trigger.what_triggered"] else []) ++
  (if e.high_level_steps = [] then [codes "Missing: workflow.high_level_steps"] else []) ++
  (if e.code_blocks = [] then [codes "Empty: code_written.blocks"] else []) ++
  (if e.tags.languages = [] then [codes "Missing: tags.languages"] else []) ++
  (if e.tags.domains = [] then [codes "Missing: tags.domains"] else [])

/-- C8 counterexample: a document with an EMPTY tags section (the section
holds nothing beyond its "## Tags" heading) whose languages list is
nevertheless nonempty, because `extract` also scans the document's last 1000
characters, which here contain "Languages: Python"; the warning
"Missing: tags.languages" is consequently absent.  The claim as stated is
false on it. -/
theorem C8_counterexample :
    (extract_sections (codes "Languages: Python\n## Tags")).lookup "tags" =
      some (codes "## Tags") ∧
    (extractionTags (codes "Languages: Python\n## Tags")).languages =
      [codes "python"] ∧
    codes "Missing: tags.languages" ∉ generate_warnings
      { metadata_date := none, trigger_what_triggered := none,
        high_level_steps := [], code_blocks := [],
        tags := extractionTags (codes "Languages: Python\n## Tags") } := by
  refine ⟨by decide, by decide, by decide⟩

/-- C8 (amended): for every document on which the six tag-label searches find
no match in the scanned text (the tags section plus the document's last 1000
characters) — in particular a document whose tags section is empty and whose
tail holds no tag labels — the extraction's six tag lists are all empty, and
the parse warnings contain both "Missing: tags.languages" and
"Missing: tags.domains". -/
theorem C8_empty_tags (content : List Nat) (e : ExtractionView)
    (h1 : searchLanguages (pyLower (tagsContent content)) = none)
    (h2 : searchFrameworks (pyLower (tagsContent content)) = none)
    (h3 : searchTools (pyLower (tagsContent content)) = none)
    (h4 : searchDomains (pyLower (tagsContent content)) = none)
    (h5 : searchPatterns (pyLower (tagsContent content)) = none)
    (h6 : searchServices (pyLower (tagsContent content)) = none)
    (he : e.tags = extractionTags content) :
    e.tags.languages = [] ∧ e.tags.frameworks = [] ∧ e.tags.tools = [] ∧
    e.tags.domains = [] ∧ e.tags.patterns = [] ∧ e.tags.services = [] ∧
    codes "Missing: tags.languages" ∈ generate_warnings e ∧
    codes "Missing: tags.domains" ∈ generate_warnings e := by
  have htags : e.tags =
      { languages := [], frameworks := [], tools := [],
        domains := [], patterns := [], services := [] } := by
    rw [he]
    unfold extractionTags extract_tags
    rw [h1, h2, h3, h4, h5, h6]
    rfl
  refine ⟨by rw [htags], by rw [htags], by rw [htags], by rw [htags],
    by rw [htags], by rw [htags], ?_, ?_⟩ <;>
  · unfold generate_warnings
    rw [htags]
    simp [codes]

/-- Witness for C8 on the document consisting of a bare "## Tags" heading. -/
theorem C8_witness :
    searchLanguages (pyLower (tagsContent (codes "## Tags"))) = none ∧
    ((extractionTags (codes "## Tags")).languages = [] ∧
     (extractionTags (codes "## Tags")).frameworks = [] ∧
     (extractionTags (codes "## Tags")).tools = [] ∧
     (extractionTags (codes "## Tags")).domains = [] ∧
     (extractionTags (codes "## Tags")).patterns = [] ∧
     (extractionTags (codes "## Tags")).services = [] ∧
     codes "Missing: tags.languages" ∈ generate_warnings
       { metadata_date := none, trigger_what_triggered := none,
         high_level_steps := [], code_blocks := [],
         tags := extractionTags (codes "## Tags") } ∧
     codes "Missing: tags.domains" ∈ generate_warnings
       { metadata_date := none, trigger_what_triggered := none,
         high_level_steps := [], code_blocks := [],
         tags := extractionTags (codes "## Tags") }) :=
  ⟨by decide,
    C8_empty_tags (codes "## Tags")
      { metadata_date := none, trigger_what_triggered := none,
        high_level_steps := [], code_blocks := [],
        tags := extractionTags (codes "## Tags") }
      (by decide) (by decide) (by decide) (by decide) (by decide) (by decide) rfl⟩

/-! ## Batch processing (layer1_extractor.py, lines 1044-1098)

`process_directory` builds its work list with two glob calls —
`files = list(input_path.glob(pattern))` followed by
`files.extend(input_path.glob(f"**/{pattern}"))` (lines 1057-1059) — filters
it to names starting with "SR-PTD" or "task_doc", and loops: a file whose
`SRPTDExtractor.load()` returns `False` (the method catches its own I/O
exceptions) is appended to `failed`, any other exception in the body is also
caught into `failed`, and otherwise the file is extracted and appended to
`processed`.  Because `**` matches zero or more directories, the second glob
lists every TOP-LEVEL matching file again, so top-level documents appear twice
in the work list and are processed (or failed) twice.  The model takes the
directory tree as input: each file carries its directory components relative
to the input directory, its name, and `some content` when it loads (`none`
when opening/reading raises).  The globs are embedded at the function's
default pattern `*.md` (fnmatch of `*X` is a suffix test; pathlib does not
special-case hidden files).  Extraction is deterministic and total in the
embedding and output writes are not modelled, so the modelled failure mode is
exactly load failure; processed and failed entries are abstracted to their
source names (the real entries are dicts keyed by source; only their count is
claimed). -/

structure FsFile where
  dirs : List (List Nat)
  name : List Nat
  load : Option (List Nat)

/-- fnmatch of the default pattern `*.md` against a file name. -/
def matchesMd (name : List Nat) : Bool := (codes ".md").isSuffixOf name

/-- `input_path.glob("*.md")`: matching files at the top level. -/
def globTop (fs : List FsFile) : List FsFile :=
  fs.filter (fun f => f.dirs.isEmpty && matchesMd f.name)

/-- `input_path.glob("**/*.md")`: matching files under zero or more
directories — which includes the top level again. -/
def globRec (fs : List FsFile) : List FsFile :=
  fs.filter (fun f => matchesMd f.name)

/-- Lines 1057-1059: the first glob's list extended with the recursive one. -/
def globListing (fs : List FsFile) : List FsFile := globTop fs ++ globRec fs

/-- The `startswith(('SR-PTD', 'task_doc'))` filter. -/
def srptdName (f : FsFile) : Bool :=
  (codes "SR-PTD").isPrefixOf f.name || (codes "task_doc").isPrefixOf f.name

structure BatchResults where
  processed : List (List Nat)
  failed : List (List Nat)
  total : Nat

def processStep (r : BatchResults) (f : FsFile) : BatchResults :=
  match f.load with
  | some _ => { r with processed := r.processed ++ [f.name] }
  | none => { r with failed := r.failed ++ [f.name] }

/-- `process_directory`, over a directory tree. -/
def process_directory (fs : List FsFile) : BatchResults :=
  ((globListing fs).filter srptdName).foldl processStep
    { processed := [], failed := [],
      total := ((globListing fs).filter srptdName).length }

theorem processStep_counts :
    ∀ (files : List FsFile) (r : BatchResults),
      (files.foldl processStep r).processed.length =
          r.processed.length + files.countP (fun f => f.load.isSome) ∧
      (files.foldl processStep r).failed.length =
          r.failed.length + files.countP (fun f => f.load.isNone) ∧
      (files.foldl processStep r).total = r.total := by
  intro files
  induction files with
  | nil => intro r; simp
  | cons f rest ih =>
    intro r
    simp only [List.foldl_cons, List.countP_cons]
    rcases hl : f.load with _ | c
    · have := ih { r with failed := r.failed ++ [f.name] }
      simp only [processStep, hl] at *
      refine ⟨?_, ?_, ?_⟩ <;> simp [this.1, this.2.1, this.2.2, hl]
      omega
    · have := ih { r with processed := r.processed ++ [f.name] }
      simp only [processStep, hl] at *
      refine ⟨?_, ?_, ?_⟩ <;> simp [this.1, this.2.1, this.2.2, hl]
      omega

/-- Ten SR-PTD documents, the 3rd and 7th unreadable, all in the given
directory ([] places them at the input directory's top level). -/
def tenDocBatch (dirs : List (List Nat)) : List FsFile :=
  [⟨dirs, codes "SR-PTD-01.md", some (codes "a")⟩,
   ⟨dirs, codes "SR-PTD-02.md", some (codes "b")⟩,
   ⟨dirs, codes "SR-PTD-03.md", none⟩,
   ⟨dirs, codes "SR-PTD-04.md", some (codes "c")⟩,
   ⟨dirs, codes "SR-PTD-05.md", some (codes "d")⟩,
   ⟨dirs, codes "SR-PTD-06.md", some (codes "e")⟩,
   ⟨dirs, codes "SR-PTD-07.md", none⟩,
   ⟨dirs, codes "SR-PTD-08.md", some (codes "f")⟩,
   ⟨dirs, codes "SR-PTD-09.md", some (codes "g")⟩,
   ⟨dirs, codes "SR-PTD-10.md", some (codes "h")⟩]

/-- C2 counterexample: a flat input directory holding exactly 10 SR-PTD
documents of which exactly 2 fail to load.  Both glob calls list every
top-level file, so each document enters the work list twice and the run
reports total = 20, processed = 16, failed = 4 — not 8/2/10 as claimed. -/
theorem C2_counterexample :
    (tenDocBatch []).length = 10 ∧
    (tenDocBatch []).countP (fun f => f.load.isSome) = 8 ∧
    (tenDocBatch []).countP (fun f => f.load.isNone) = 2 ∧
    (∀ f ∈ tenDocBatch [], srptdName f = true ∧ matchesMd f.name = true) ∧
    (process_directory (tenDocBatch [])).processed.length = 16 ∧
    (process_directory (tenDocBatch [])).failed.length = 4 ∧
    (process_directory (tenDocBatch [])).total = 20 := by
  refine ⟨by decide, by decide, by decide, by decide, by decide, by decide, by decide⟩

/-- C2 (amended): for a batch of exactly 10 SR-PTD documents of which exactly
2 fail to load and 8 load successfully, `process_directory` reports 8
processed, 2 failed and total 10, PROVIDED the documents lie in subdirectories
of the input directory (so only the recursive glob lists them, once each);
documents at the top level are listed by both glob calls and counted twice.
`process_directory` is a total function, so the run terminates normally with
no failure aborting the batch loop. -/
theorem C2_batch_counts (fs : List FsFile)
    (hsub : ∀ f ∈ fs, f.dirs ≠ [])
    (hmd : ∀ f ∈ fs, matchesMd f.name = true)
    (hname : ∀ f ∈ fs, srptdName f = true)
    (h10 : fs.length = 10)
    (h8 : fs.countP (fun f => f.load.isSome) = 8)
    (h2 : fs.countP (fun f => f.load.isNone) = 2) :
    (process_directory fs).processed.length = 8 ∧
    (process_directory fs).failed.length = 2 ∧
    (process_directory fs).total = 10 := by
  have htop : globTop fs = [] := by
    unfold globTop
    refine List.filter_eq_nil_iff.mpr ?_
    intro f hf
    simp [hsub f hf]
  have hrec : globRec fs = fs := List.filter_eq_self.mpr hmd
  have hlist : globListing fs = fs := by
    unfold globListing
    rw [htop, hrec, List.nil_append]
  have hfilt : fs.filter srptdName = fs := List.filter_eq_self.mpr hname
  unfold process_directory
  rw [hlist, hfilt]
  have h := processStep_counts fs
    { processed := [], failed := [], total := fs.length }
  refine ⟨?_, ?_, ?_⟩
  · rw [h.1]; simpa using h8
  · rw [h.2.1]; simpa using h2
  · rw [h.2.2]; exact h10

/-- Witness for C2: the same 10 documents placed in a subdirectory "docs". -/
theorem C2_witness :
    (∀ f ∈ tenDocBatch [codes "docs"], f.dirs ≠ []) ∧
    ((process_directory (tenDocBatch [codes "docs"])).processed.length = 8 ∧
     (process_directory (tenDocBatch [codes "docs"])).failed.length = 2 ∧
     (process_directory (tenDocBatch [codes "docs"])).total = 10) :=
  ⟨by decide,
    C2_batch_counts (tenDocBatch [codes "docs"])
      (by decide) (by decide) (by decide) (by decide) (by decide) (by decide)⟩
/-! ## Loosely-typed records (claude_logs_parser.py)

`LogEntryParser.parse_entry` receives one parsed JSON object and dispatches on
its keys; every helper can raise on unexpected dynamic types, and the
enclosing `try`/`except` converts any exception into `None`.  Python values
are embedded as `PyVal` (floats are not modelled; JSON numbers appear as
integers), exceptions as `Except PyErr`.  The standard-library pieces the
parser calls but that are not part of the repository (`base64.b64decode`,
`bytes.decode('utf-8')`, `datetime.fromtimestamp`, `datetime.fromisoformat`)
are modelled from their documented behaviour, as noted on each definition. -/

inductive PyVal where
  | none
  | bool (b : Bool)
  | int (n : Int)
  | str (s : List Nat)
  | list (xs : List PyVal)
  | dict (entries : List (List Nat × PyVal))

inductive PyErr where
  | attributeError
  | typeError
deriving DecidableEq

def dictLookup : List (List Nat × PyVal) → List Nat → Option PyVal
  | [], _ => Option.none
  | (k, v) :: rest, key => if k = key then some v else dictLookup rest key

def PyVal.isDictB : PyVal → Bool
  | .dict _ => true
  | _ => false

/-- Keys test on a dict (false on anything else; the raising cases of the
`in` operator are handled in `pyContainsKey`). -/
def PyVal.hasKeyB : PyVal → List Nat → Bool
  | .dict es, k => es.any (fun p => p.1 == k)
  | _, _ => false

/-- Python truthiness. -/
def pyTruthy : PyVal → Bool
  | .none => false
  | .bool b => b
  | .int n => n != 0
  | .str s => !s.isEmpty
  | .list xs => !xs.isEmpty
  | .dict d => !d.isEmpty

/-- `dict.get(k, default)`: `AttributeError` on non-dicts. -/
def pyGetD (v : PyVal) (k : List Nat) (dflt : PyVal) : Except PyErr PyVal :=
  match v with
  | .dict entries => .ok ((dictLookup entries k).getD dflt)
  | _ => .error .attributeError

/-- Structural equality, as Python `==` compares a string against the values
met here (a string never equals a non-string; numeric cross-type equality is
not exercised by the parser's comparisons, which are all against string
literals). -/
def PyVal.beq : PyVal → PyVal → Bool
  | .none, .none => true
  | .bool a, .bool b => a == b
  | .int a, .int b => a == b
  | .str a, .str b => a == b
  | .list xs, .list ys => beqList xs ys
  | .dict xs, .dict ys => beqEntries xs ys
  | _, _ => false
where
  beqList : List PyVal → List PyVal → Bool
    | [], [] => true
    | x :: xs, y :: ys => PyVal.beq x y && beqList xs ys
    | _, _ => false
  beqEntries : List (List Nat × PyVal) → List (List Nat × PyVal) → Bool
    | [], [] => true
    | (k1, v1) :: xs, (k2, v2) :: ys => k1 == k2 && PyVal.beq v1 v2 && beqEntries xs ys
    | _, _ => false

instance : BEq PyVal := ⟨PyVal.beq⟩

/-- The `in` operator as used by the dispatch: key test on dicts, substring
on strings, membership on lists; `TypeError` on the remaining types. -/
def pyContainsKey (v : PyVal) (k : List Nat) : Except PyErr Bool :=
  match v with
  | .dict _ => .ok (v.hasKeyB k)
  | .str s => .ok (containsSub s k)
  | .list xs => .ok (xs.any (fun x => x == PyVal.str k))
  | _ => .error .typeError

/-- `.lower()` on a value: `AttributeError` unless it is a string. -/
def pyLowerVal : PyVal → Except PyErr (List Nat)
  | .str s => .ok (pyLower s)
  | _ => .error .attributeError

def natDigitsGo : Nat → Nat → List Nat
  | 0, _ => []
  | fuel + 1, n => if n < 10 then [48 + n] else natDigitsGo fuel (n / 10) ++ [48 + n % 10]

def intToStr (n : Int) : List Nat :=
  if n < 0 then 45 :: natDigitsGo (n.natAbs + 1) n.natAbs
  else natDigitsGo (n.toNat + 1) n.toNat

mutual

/-- Python `repr` of a value (container rendering; strings are shown in single
quotes — Python switches to double quotes when the string itself holds a
single quote, a refinement no claim depends on). -/
def pyReprV : PyVal → List Nat
  | .none => codes "None"
  | .bool b => if b then codes "True" else codes "False"
  | .int n => intToStr n
  | .str s => 39 :: s ++ [39]
  | .list xs => 91 :: pyReprList xs ++ [93]
  | .dict es => 123 :: pyReprEntries es ++ [125]

def pyReprList : List PyVal → List Nat
  | [] => []
  | [x] => pyReprV x
  | x :: y :: rest => pyReprV x ++ codes ", " ++ pyReprList (y :: rest)

def pyReprEntries : List (List Nat × PyVal) → List Nat
  | [] => []
  | [(k, v)] => 39 :: k ++ [39] ++ codes ": " ++ pyReprV v
  | (k, v) :: e :: rest =>
    39 :: k ++ [39] ++ codes ": " ++ pyReprV v ++ codes ", " ++ pyReprEntries (e :: rest)

end

/-- Python `str()` of a value. -/
def pyStrV : PyVal → List Nat
  | .str s => s
  | v => pyReprV v

/-! ### Modelled standard-library pieces -/

inductive PyTimestamp where
  | fromEpoch (secs : Rat)
  | fromIsoText (s : List Nat)

/-- Modelled from the spec: `datetime.fromtimestamp` (standard library, not in
src).  "epoch seconds, epoch milliseconds (disambiguated by magnitude)";
values outside datetime's representable year range raise, which the source
catches, leaving the timestamp unset.  The exact platform-dependent bounds are
immaterial to the claims. -/
def fromTimestampModel (n : Int) : Option PyTimestamp :=
  if n > 10 ^ 12 then
    let secs : Rat := (n : Rat) / 1000
    if -62135596800 ≤ secs ∧ secs ≤ 253402300799 then some (.fromEpoch secs)
    else Option.none
  else
    if -62135596800 ≤ n ∧ n ≤ 253402300799 then some (.fromEpoch (n : Rat))
    else Option.none

def twoDigitVal (a b : Nat) : Option Nat :=
  if pyDigitN a && pyDigitN b then some ((a - 48) * 10 + (b - 48)) else Option.none

def isoOffsetOk : List Nat → Bool
  | [sgn, o1, o2, 58, p1, p2] =>
    (sgn == 43 || sgn == 45) &&
    (match twoDigitVal o1 o2, twoDigitVal p1 p2 with
     | some oh, some om => oh ≤ 23 && om ≤ 59
     | _, _ => false)
  | _ => false

def isoSecondsOk : List Nat → Bool
  | [] => true
  | 58 :: s1 :: s2 :: rest =>
    (match twoDigitVal s1 s2 with
     | some sv => sv ≤ 59
     | _ => false) && (rest.isEmpty || isoOffsetOk rest)
  | rest => isoOffsetOk rest

def isoTimeOk : List Nat → Bool
  | _sep :: h1 :: h2 :: 58 :: mi1 :: mi2 :: rest =>
    (match twoDigitVal h1 h2, twoDigitVal mi1 mi2 with
     | some hv, some mv => hv ≤ 23 && mv ≤ 59
     | _, _ => false) && isoSecondsOk rest
  | _ => false

/-- Modelled from the spec: `datetime.fromisoformat` (standard library, not in
src) accepts "ISO-8601 text; failures leave the timestamp unset".  Simplified
shape check: date, optional time with optional seconds and offset; fractional
seconds are not modelled.  The datetime value is kept symbolically. -/
def isoOk (s : List Nat) : Bool :=
  match s with
  | y1 :: y2 :: y3 :: y4 :: 45 :: m1 :: m2 :: 45 :: d1 :: d2 :: rest =>
    pyDigitN y1 && pyDigitN y2 && pyDigitN y3 && pyDigitN y4 &&
    (match twoDigitVal m1 m2, twoDigitVal d1 d2 with
     | some mo, some da => 1 ≤ mo && mo ≤ 12 && 1 ≤ da && da ≤ 31
     | _, _ => false) &&
    (rest.isEmpty || isoTimeOk rest)
  | _ => false

/-- `ts.replace("Z", "+00:00")`. -/
def replaceZ (s : List Nat) : List Nat :=
  (s.map (fun c => if c == 90 then codes "+00:00" else [c])).flatten

def fromIsoModel (s : List Nat) : Option PyTimestamp :=
  if isoOk (replaceZ s) then some (.fromIsoText (replaceZ s)) else Option.none

/-- Modelled from the spec: `base64.b64decode` (standard library, not in src)
with `validate=False` discards non-alphabet characters, then requires a length
that is a multiple of four; padding is accepted in the final group.  Invalid
input raises, which the source's inner `try` swallows. -/
def b64CharVal (c : Nat) : Option Nat :=
  if 65 ≤ c ∧ c ≤ 90 then some (c - 65)
  else if 97 ≤ c ∧ c ≤ 122 then some (c - 71)
  else if 48 ≤ c ∧ c ≤ 57 then some (c + 4)
  else if c = 43 then some 62
  else if c = 47 then some 63
  else Option.none

def b64Groups : List Nat → Option (List Nat)
  | [] => some []
  | a :: b :: c :: d :: rest =>
    (match b64CharVal a, b64CharVal b with
     | some va, some vb =>
       if c == 61 && d == 61 && rest.isEmpty then
         some [va * 4 + vb / 16]
       else
         match b64CharVal c with
         | some vc =>
           if d == 61 && rest.isEmpty then
             some [va * 4 + vb / 16, (vb % 16) * 16 + vc / 4]
           else
             match b64CharVal d with
             | some vd =>
               (b64Groups rest).map
                 (fun tail => (va * 4 + vb / 16) :: ((vb % 16) * 16 + vc / 4) ::
                   ((vc % 4) * 64 + vd) :: tail)
             | _ => Option.none
         | _ => Option.none
     | _, _ => Option.none)
  | _ => Option.none

def b64DecodeBytes (s : List Nat) : Option (List Nat) :=
  let kept := s.filter (fun c => (b64CharVal c).isSome || c == 61)
  if kept.length % 4 = 0 then b64Groups kept else Option.none

/-- Strict UTF-8 decoding (`bytes.decode('utf-8')`): overlong encodings,
surrogates and out-of-range values are rejected, raising in Python. -/
def utf8Dec : List Nat → Option (List Nat)
  | [] => some []
  | b :: rest =>
    if b < 0x80 then (utf8Dec rest).map (b :: ·)
    else if 0xC2 ≤ b ∧ b ≤ 0xDF then
      match rest with
      | b2 :: rest2 =>
        if 0x80 ≤ b2 ∧ b2 ≤ 0xBF then
          (utf8Dec rest2).map (((b - 0xC0) * 64 + (b2 - 0x80)) :: ·)
        else Option.none
      | [] => Option.none
    else if 0xE0 ≤ b ∧ b ≤ 0xEF then
      match rest with
      | b2 :: b3 :: rest2 =>
        if (0x80 ≤ b2 ∧ b2 ≤ 0xBF) ∧ (0x80 ≤ b3 ∧ b3 ≤ 0xBF) then
          let v := (b - 0xE0) * 4096 + (b2 - 0x80) * 64 + (b3 - 0x80)
          if 0x800 ≤ v ∧ ¬(0xD800 ≤ v ∧ v ≤ 0xDFFF) then
            (utf8Dec rest2).map (v :: ·)
          else Option.none
        else Option.none
      | _ => Option.none
    else if 0xF0 ≤ b ∧ b ≤ 0xF4 then
      match rest with
      | b2 :: b3 :: b4 :: rest2 =>
        if (0x80 ≤ b2 ∧ b2 ≤ 0xBF) ∧ (0x80 ≤ b3 ∧ b3 ≤ 0xBF) ∧
           (0x80 ≤ b4 ∧ b4 ≤ 0xBF) then
          let v := (b - 0xF0) * 262144 + (b2 - 0x80) * 4096 + (b3 - 0x80) * 64 +
            (b4 - 0x80)
          if 0x10000 ≤ v ∧ v ≤ 0x10FFFF then (utf8Dec rest2).map (v :: ·)
          else Option.none
        else Option.none
      | _ => Option.none
    else Option.none

def b64DecodeUtf8 (s : List Nat) : Option (List Nat) :=
  (b64DecodeBytes s).bind utf8Dec

/-! ### The entry parser (claude_logs_parser.py, lines 156-377) -/

inductive MessageRole where
  | user
  | assistant
  | system
  | tool
  | toolResult
deriving DecidableEq

structure ToolUse where
  tool_name : PyVal
  tool_id : PyVal
  parameters : PyVal

structure Message where
  role : MessageRole
  content : PyVal
  timestamp : Option PyTimestamp
  tool_uses : List ToolUse
  thinking : PyVal
  token_count : PyVal
  raw_data : PyVal

/-- `"\n".join(parts)`: raises `TypeError` when any part is not a string. -/
def allStrs : List PyVal → Option (List (List Nat))
  | [] => some []
  | .str s :: rest => (allStrs rest).map (s :: ·)
  | _ :: _ => Option.none

/-- `LogEntryParser._extract_content` (lines 288-322). -/
def extractContent (entry : PyVal) : Except PyErr PyVal := do
  let c ← pyGetD entry (codes "content") .none
  match c with
  | .str s => return .str s
  | .list items =>
    let parts := items.foldl (fun acc item =>
      match item with
      | .str s => acc ++ [PyVal.str s]
      | .dict d =>
        if ((dictLookup d (codes "type")).getD .none) == PyVal.str (codes "text") then
          acc ++ [(dictLookup d (codes "text")).getD (.str [])]
        else if ((dictLookup d (codes "type")).getD .none) ==
            PyVal.str (codes "tool_use") then
          acc ++ [PyVal.str (codes "[Tool: " ++
            pyStrV ((dictLookup d (codes "name")).getD (.str (codes "unknown"))) ++ [93])]
        else acc
      | _ => acc) []
    match allStrs parts with
    | some strs => return .str (List.intercalate [10] strs)
    | none => throw .typeError
  | _ =>
    let b64 ← pyGetD entry (codes "content_base64") .none
    let decoded : Option (List Nat) :=
      if pyTruthy b64 then
        match b64 with
        | .str s => b64DecodeUtf8 s
        | _ => Option.none
      else Option.none
    match decoded with
    | some out => return .str out
    | none =>
      let m ← pyGetD entry (codes "message") .none
      match m with
      | .str s => return .str s
      | _ =>
        let t ← pyGetD entry (codes "text") .none
        if pyTruthy t then return t
        else return .str []

/-- `LogEntryParser._extract_tool_uses` (lines 324-347).  Iterating a truthy
non-list `tool_uses` value either raises `TypeError` (not iterable) or yields
non-dict elements whose `.get` raises `AttributeError`. -/
def extractToolUses (entry : PyVal) : Except PyErr (List ToolUse) := do
  let c ← pyGetD entry (codes "content") .none
  let tools1 : List ToolUse :=
    match c with
    | .list items => items.foldl (fun acc item =>
        match item with
        | .dict d =>
          if ((dictLookup d (codes "type")).getD .none) ==
              PyVal.str (codes "tool_use") then
            acc ++ [{ tool_name := (dictLookup d (codes "name")).getD
                        (.str (codes "unknown")),
                      tool_id := (dictLookup d (codes "id")).getD (.str []),
                      parameters := (dictLookup d (codes "input")).getD (.dict []) }]
          else acc
        | _ => acc) []
    | _ => []
  let tuv ← pyGetD entry (codes "tool_uses") .none
  if pyTruthy tuv then
    match tuv with
    | .list xs =>
      xs.foldlM (fun acc tu =>
        match tu with
        | .dict d =>
          pure (acc ++
            [{ tool_name := (dictLookup d (codes "name")).getD
                 ((dictLookup d (codes "tool_name")).getD (.str (codes "unknown"))),
               tool_id := (dictLookup d (codes "id")).getD
                 ((dictLookup d (codes "tool_id")).getD (.str [])),
               parameters := (dictLookup d (codes "input")).getD
                 ((dictLookup d (codes "parameters")).getD (.dict [])) }])
        | _ => throw PyErr.attributeError) tools1
    | .str _ => throw .attributeError
    | .dict _ => throw .attributeError
    | _ => throw .typeError
  else return tools1

/-- `LogEntryParser._create_message` (lines 349-377).  The timestamp block is
wrapped in its own `try`, so invalid timestamps leave the field unset; the
`token_count` fallback `entry.get("usage", {}).get("output_tokens")` is NOT
inside that `try` and raises when `usage` is a non-dict. -/
def createMessage (role : MessageRole) (content : PyVal) (entry : PyVal)
    (tool_uses : List ToolUse) (thinking : PyVal) : Except PyErr Message := do
  let tsv ← pyGetD entry (codes "timestamp") .none
  let timestamp : Option PyTimestamp :=
    if pyTruthy tsv then
      match tsv with
      | .int n => fromTimestampModel n
      | .bool _ => fromTimestampModel 1
      | .str s => fromIsoModel s
      | _ => Option.none
    else Option.none
  let tc ← pyGetD entry (codes "token_count") .none
  let tcFinal ←
    if pyTruthy tc then pure tc
    else do
      let usage ← pyGetD entry (codes "usage") (.dict [])
      pyGetD usage (codes "output_tokens") .none
  return { role := role, content := content, timestamp := timestamp,
           tool_uses := tool_uses, thinking := thinking,
           token_count := tcFinal, raw_data := entry }

def roleOf (s : List Nat) : Option MessageRole :=
  if s = codes "user" then some .user
  else if s = codes "assistant" then some .assistant
  else if s = codes "system" then some .system
  else if s = codes "tool_use" then some .tool
  else if s = codes "tool_result" then some .toolResult
  else Option.none

/-- `LogEntryParser._parse_typed_entry` (lines 198-241). -/
def parseTypedEntry (entry : PyVal) : Except PyErr (Option Message) := do
  let tv ← pyGetD entry (codes "type") (.str [])
  let et ← pyLowerVal tv
  if et = codes "human" ∨ et = codes "user" then
    let content ← extractContent entry
    let msg ← createMessage .user content entry [] .none
    return some msg
  else if et = codes "assistant" ∨ et = codes "ai" then
    let content ← extractContent entry
    let tus ← extractToolUses entry
    let th ← pyGetD entry (codes "thinking") .none
    let msg ← createMessage .assistant content entry tus th
    return some msg
  else if et = codes "tool_use" then
    let nmD ← pyGetD entry (codes "tool_name") (.str (codes "unknown"))
    let nm ← pyGetD entry (codes "name") nmD
    let idD ← pyGetD entry (codes "tool_id") (.str [])
    let tid ← pyGetD entry (codes "id") idD
    let paramD ← pyGetD entry (codes "parameters") (.dict [])
    let params ← pyGetD entry (codes "input") paramD
    let tu : ToolUse := { tool_name := nm, tool_id := tid, parameters := params }
    let msg ← createMessage .tool (.str (codes "Tool: " ++ pyStrV nm)) entry [tu] .none
    return some msg
  else if et = codes "tool_result" then
    let content ← extractContent entry
    let msg ← createMessage .toolResult content entry [] .none
    return some msg
  else
    return Option.none

/-- `LogEntryParser._parse_role_entry` (lines 243-256). -/
def parseRoleEntry (entry : PyVal) : Except PyErr (Option Message) := do
  let rv ← pyGetD entry (codes "role") (.str [])
  let rs ← pyLowerVal rv
  match roleOf rs with
  | some role =>
    let content ← extractContent entry
    let tus ← extractToolUses entry
    let th ← pyGetD entry (codes "thinking") .none
    let msg ← createMessage role content entry tus th
    return some msg
  | none => return Option.none

/-- `LogEntryParser._parse_content_entry` (lines 272-286). -/
def parseContentEntry (entry : PyVal) : Except PyErr (Option Message) := do
  let content ← extractContent entry
  if pyTruthy content then
    let ia ← pyGetD entry (codes "isAssistant") .none
    let sender ← pyGetD entry (codes "sender") (.str [])
    let role := if pyTruthy ia ||
        containsSub (pyLower (pyStrV sender)) (codes "assistant")
      then MessageRole.assistant else MessageRole.user
    let msg ← createMessage role content entry [] .none
    return some msg
  else return Option.none

mutual

/-- Size of a value, dominating its nesting depth; used as recursion fuel. -/
def pySize : PyVal → Nat
  | .none => 1
  | .bool _ => 1
  | .int _ => 1
  | .str _ => 1
  | .list xs => 1 + pySizeList xs
  | .dict es => 1 + pySizeEntries es

def pySizeList : List PyVal → Nat
  | [] => 0
  | x :: rest => 1 + pySize x + pySizeList rest

def pySizeEntries : List (List Nat × PyVal) → Nat
  | [] => 0
  | (_, v) :: rest => 1 + pySize v + pySizeEntries rest

end

/-- The body of `LogEntryParser.parse_entry` (lines 171-196) WITHOUT its
`try`/`except`: the key dispatch, with `_parse_nested_message` (lines 258-270)
inlined at its call site.  The nested recursive call goes through the public
(catching) `parse_entry`, exactly as in the source.  Recursion is by fuel;
each nested call descends into a strict subvalue, so any fuel of at least the
term size makes the fuel-exhaustion branch unreachable. -/
def parse_entryE : Nat → PyVal → Except PyErr (Option Message)
  | 0, _ => .ok Option.none
  | fuel + 1, entry =>
    match pyContainsKey entry (codes "type") with
    | .error e => .error e
    | .ok true => parseTypedEntry entry
    | .ok false =>
      match pyContainsKey entry (codes "role") with
      | .error e => .error e
      | .ok true => parseRoleEntry entry
      | .ok false =>
        match pyContainsKey entry (codes "message") with
        | .error e => .error e
        | .ok true =>
          match pyGetD entry (codes "message") (.dict []) with
          | .error e => .error e
          | .ok m =>
            match m with
            | .dict _ =>
              .ok (match parse_entryE fuel m with
                   | .ok o => o
                   | .error _ => Option.none)
            | .str s =>
              match createMessage .user (.str s) entry [] .none with
              | .ok msg => .ok (some msg)
              | .error e => .error e
            | _ => .ok Option.none
        | .ok false =>
          match pyContainsKey entry (codes "content") with
          | .error e => .error e
          | .ok true => parseContentEntry entry
          | .ok false => .ok Option.none

/-- `LogEntryParser.parse_entry`: the body under `try`, with `except` turning
any exception into `None`. -/
def parse_entry (entry : PyVal) : Option Message :=
  match parse_entryE (pySize entry + 1) entry with
  | .ok o => o
  | .error _ => Option.none

/-- C3: for every dict record, `parse_entry` returns zero or one `Message`
and never propagates an exception — whenever the un-caught body raises, the
function returns `None`, and whenever the body returns, the function returns
its value; a record with none of the recognized keys (a malformed record)
yields `None`; and on the concrete record with a non-string "type" field
(whose `.lower()` raises `AttributeError` internally) the body raises while
`parse_entry` still returns `None`. -/
theorem C3_parse_entry_total (entry : PyVal) (hd : entry.isDictB = true) :
    (parse_entry entry = Option.none ∨ ∃ m, parse_entry entry = some m) ∧
    (∀ e : PyErr, parse_entryE (pySize entry + 1) entry = .error e →
      parse_entry entry = Option.none) ∧
    (∀ o : Option Message, parse_entryE (pySize entry + 1) entry = .ok o →
      parse_entry entry = o) ∧
    ((entry.hasKeyB (codes "type") = false ∧ entry.hasKeyB (codes "role") = false ∧
      entry.hasKeyB (codes "message") = false ∧
      entry.hasKeyB (codes "content") = false) →
      parse_entry entry = Option.none) ∧
    (parse_entryE (pySize (PyVal.dict [(codes "type", PyVal.int 42)]) + 1)
        (PyVal.dict [(codes "type", PyVal.int 42)]) =
      .error .attributeError ∧
     parse_entry (PyVal.dict [(codes "type", PyVal.int 42)]) = Option.none) := by
  refine ⟨?_, ?_, ?_, ?_, rfl, rfl⟩
  · cases h : parse_entry entry with
    | none => exact Or.inl rfl
    | some m => exact Or.inr ⟨m, rfl⟩
  · intro e he
    unfold parse_entry
    rw [he]
  · intro o ho
    unfold parse_entry
    rw [ho]
  · intro ⟨h1, h2, h3, h4⟩
    cases entry with
    | dict es =>
      unfold parse_entry
      simp only [parse_entryE, pyContainsKey, h1, h2, h3, h4]
    | none => exact absurd hd (by simp [PyVal.isDictB])
    | bool b => exact absurd hd (by simp [PyVal.isDictB])
    | int n => exact absurd hd (by simp [PyVal.isDictB])
    | str s => exact absurd hd (by simp [PyVal.isDictB])
    | list xs => exact absurd hd (by simp [PyVal.isDictB])

/-- Witness for C3 at a concrete malformed dict record. -/
theorem C3_witness :
    (PyVal.dict [(codes "foo", PyVal.int 1)]).isDictB = true ∧
    (parse_entry (PyVal.dict [(codes "foo", PyVal.int 1)]) = Option.none ∨
      ∃ m, parse_entry (PyVal.dict [(codes "foo", PyVal.int 1)]) = some m) :=
  ⟨rfl, (C3_parse_entry_total (PyVal.dict [(codes "foo", PyVal.int 1)]) rfl).1⟩

end SkillMill
